import Mathlib

/-!
Shallow embedding of the indicator data-acquisition and caching core of
`src/app.py` (guiajf/indicadores).

Modelling conventions:
* Calendar dates and wall-clock times are Unix seconds as `Nat`
  (`time.time()` values; one day = 86400 seconds).
* Numeric observations are abstracted as `Int` (the core never computes
  with the values, it only stores, drops and returns them); a pandas `NaN`
  cell is `Option.none`.
* A pandas `DataFrame` is a `RawFrame`: a list of column names and a list
  of rows `(date, cells)`, cells aligned with the columns.
* Network outcomes (`yf.download`, `sgs.get`) are inputs of each call: an
  `Except Unit RawFrame` oracle in the call's `Env`, `.error` standing for
  a raised transport exception.
* A Python function that may raise is embedded returning
  `Except PyError _`; `with_cache` catches every exception of the wrapped
  function, so the wrapped entry point's result is an `Except` that the
  code in fact always fills with `.ok`.
* Each call records the upstream adapter invocations it performs
  (`FetchCall` list); "no network I/O" is formalised as that list being
  empty.
-/

namespace Indicadores

/-- Source tag of an indicator: Yahoo Finance or Banco Central do Brasil
(`fonte` field of the `indicadores` dict, app.py:33-40). -/
inductive Fonte
  | YF
  | BCB
deriving DecidableEq

/-- Provider-specific code: a ticker string for YF, a numeric series code
for BCB (the heterogeneous `codigo` values of the dict). -/
inductive Codigo
  | str (s : String)
  | num (n : Nat)
deriving DecidableEq

/-- String form of a code, used when a column is renamed to the ticker
(app.py:67). -/
def Codigo.name : Codigo → String
  | .str s => s
  | .num n => toString n

/-- One registry record: `{'codigo': ..., 'fonte': ..., 'unidade': ...}`. -/
structure IndicadorInfo where
  codigo : Codigo
  fonte : Fonte
  unidade : String
deriving DecidableEq

/-- The indicator registry (`indicadores` dict, app.py:33-40). -/
def indicadores : List (String × IndicadorInfo) :=
  [("Ibovespa", ⟨.str "^BVSP", .YF, "Pontos"⟩),
   ("PIB Total", ⟨.num 4380, .BCB, "R$ milhões"⟩),
   ("Taxa Selic", ⟨.num 4189, .BCB, "% ao ano"⟩),
   ("IPCA Mensal", ⟨.num 433, .BCB, "%"⟩),
   ("Câmbio USD/BRL", ⟨.num 3696, .BCB, "R$"⟩),
   ("Taxa de Desemprego", ⟨.num 24369, .BCB, "%"⟩)]

/-- `CACHE_TIMEOUT = 3600` (app.py:44). -/
def CACHE_TIMEOUT : Nat := 3600

/-- Seconds in a day (`timedelta(days=1)`). -/
def oneDay : Nat := 86400

/-- A pandas data frame: column names plus date-indexed rows, each row's
cells aligned with the columns; a `none` cell is a missing value. -/
structure RawFrame where
  cols : List String
  rows : List (Nat × List (Option Int))
deriving DecidableEq

/-- `pd.DataFrame()` — the empty frame. -/
def emptyFrame : RawFrame := ⟨[], []⟩

/-- `df.dropna()` (app.py:99,102): keep exactly the rows whose cells are
all present. -/
def dropna (f : RawFrame) : RawFrame :=
  ⟨f.cols, f.rows.filter (fun r => r.2.all Option.isSome)⟩

/-- `data[['Close']].rename(columns={'Close': ticker})` (app.py:67):
project onto the `Close` column and rename it to the ticker. -/
def selectClose (ticker : Codigo) (data : RawFrame) : RawFrame :=
  match data.cols.indexOf? "Close" with
  | none => emptyFrame
  | some i => ⟨[ticker.name], data.rows.map (fun r => (r.1, [r.2.getD i none]))⟩

/-- Exceptions of the embedded Python code: `KeyError` from
`indicadores[indicador_nome]` (app.py:95) and a transport exception
escaping `sgs.get` (app.py:101). -/
inductive PyError
  | keyError
  | sourceError
deriving DecidableEq

instance exceptDecEq {ε α : Type} [DecidableEq ε] [DecidableEq α] :
    DecidableEq (Except ε α) := fun x y =>
  match x, y with
  | .ok a, .ok b =>
    if h : a = b then .isTrue (by rw [h]) else .isFalse (by simp [h])
  | .error a, .error b =>
    if h : a = b then .isTrue (by rw [h]) else .isFalse (by simp [h])
  | .ok _, .error _ => .isFalse (by simp)
  | .error _, .ok _ => .isFalse (by simp)

/-- The per-call environment: the two `time.time()` readings of
`with_cache` (app.py:77 and app.py:84) and the outcome each upstream
source would produce if it were called during this invocation. -/
structure Env where
  now : Nat
  now2 : Nat
  yf : Except Unit RawFrame
  bcb : Except Unit RawFrame
deriving DecidableEq

/-- The module-level date window (app.py:29-30): `start_date` and
`end_date`, both fixed when the process starts. -/
structure Config where
  start_date : Nat
  end_date : Nat
deriving DecidableEq

/-- `start_date = '1994-07-01'` (app.py:29) as Unix seconds
(8947 days after 1970-01-01). -/
def START_DATE : Nat := 8947 * 86400

/-- Lines 29-30 of app.py, run once at import time `t0`:
`start_date = '1994-07-01'`;
`end_date = (datetime.now() + timedelta(days=1)).strftime(...)`. -/
def initConfig (t0 : Nat) : Config :=
  ⟨START_DATE, t0 + oneDay⟩

/-- One upstream adapter invocation (a network request) with the window it
was asked for. -/
structure FetchCall where
  fonte : Fonte
  codigo : Codigo
  start_date : Nat
  end_date : Nat
deriving DecidableEq

/-- A cache entry `{'data': ..., 'timestamp': ...}` (app.py:82-85). -/
structure CacheEntry where
  data : RawFrame
  timestamp : Nat
deriving DecidableEq

/-- The mutable process state: the `cache` dict (app.py:43), embedded as
an association list with at most one binding per key. -/
structure SysState where
  cache : List (String × CacheEntry)
deriving DecidableEq

/-- The state at process start: `cache = {}`. -/
def initState : SysState := ⟨[]⟩

/-- `cache[indicador_nome] = {...}`: bind `k` to `v`, dropping any earlier
binding of `k`. -/
def dictInsert (k : String) (v : CacheEntry)
    (d : List (String × CacheEntry)) : List (String × CacheEntry) :=
  (k, v) :: d.filter (fun p => p.1 ≠ k)

/-- `fetch_yfinance_data` (app.py:47-71): download (outcome given by the
oracle `dl`), degrade every failure — exception, empty frame, missing
`Close` column — to the empty frame, else return the renamed `Close`
column. The date window is passed to `yf.download` and does not otherwise
affect the body. -/
def fetch_yfinance_data (ticker : Codigo) (start_date end_date : Nat)
    (dl : Except Unit RawFrame) : RawFrame :=
  match dl with
  | .error _ => emptyFrame
  | .ok data =>
    if data.rows.isEmpty then emptyFrame
    else if "Close" ∈ data.cols then selectClose ticker data
    else emptyFrame

/-- The undecorated body of `baixar_dados` (app.py:94-102): registry
lookup (`KeyError` when absent), then dispatch on `fonte`; the YF path
goes through `fetch_yfinance_data` (which never raises), the BCB path
calls `sgs.get` directly (a transport exception escapes). Both paths end
in `.dropna()`. The second component records the upstream invocations
performed. -/
def baixar_dados_inner (cfg : Config) (name : String) (env : Env) :
    Except PyError RawFrame × List FetchCall :=
  match indicadores.lookup name with
  | none => (.error .keyError, [])
  | some info =>
    match info.fonte with
    | .YF =>
      (.ok (dropna (fetch_yfinance_data info.codigo cfg.start_date cfg.end_date env.yf)),
       [⟨.YF, info.codigo, cfg.start_date, cfg.end_date⟩])
    | .BCB =>
      match env.bcb with
      | .error _ => (.error .sourceError, [⟨.BCB, info.codigo, cfg.start_date, cfg.end_date⟩])
      | .ok df => (.ok (dropna df), [⟨.BCB, info.codigo, cfg.start_date, cfg.end_date⟩])

/-- Result of one call through the cache wrapper: the value returned to
the caller (an exception would surface as `.error`; the code always
returns `.ok`), the state after the call, and the upstream invocations
performed. -/
structure CallResult where
  ret : Except PyError RawFrame
  state : SysState
  calls : List FetchCall
deriving DecidableEq

/-- The miss path of `with_cache` (app.py:80-89): run the wrapped
function; on success store `{'data': result, 'timestamp': time.time()}`
and return the result; on an exception return `pd.DataFrame()` — without
touching the cache. -/
def with_cache_fetch
    (func : Config → String → Env → Except PyError RawFrame × List FetchCall)
    (cfg : Config) (st : SysState) (name : String) (env : Env) : CallResult :=
  match (func cfg name env).1 with
  | .ok result =>
    ⟨.ok result, ⟨dictInsert name ⟨result, env.now2⟩ st.cache⟩,
     (func cfg name env).2⟩
  | .error _ => ⟨.ok emptyFrame, st, (func cfg name env).2⟩

/-- The `with_cache` decorator (app.py:74-90): serve the cached value when
the entry exists and `time.time() - timestamp < CACHE_TIMEOUT`, otherwise
run the miss path. -/
def with_cache
    (func : Config → String → Env → Except PyError RawFrame × List FetchCall)
    (cfg : Config) (st : SysState) (name : String) (env : Env) : CallResult :=
  match st.cache.lookup name with
  | some entry =>
    if env.now - entry.timestamp < CACHE_TIMEOUT then ⟨.ok entry.data, st, []⟩
    else with_cache_fetch func cfg st name env
  | none => with_cache_fetch func cfg st name env

/-- The decorated entry point `baixar_dados = with_cache(baixar_dados)`
(app.py:93-102) — the spec's `getIndicatorSeries`. -/
def baixar_dados (cfg : Config) (st : SysState) (name : String) (env : Env) :
    CallResult :=
  with_cache baixar_dados_inner cfg st name env

/-- Run a sequence of calls, threading the cache state. -/
def runCalls (cfg : Config) (st : SysState) : List (String × Env) → SysState
  | [] => st
  | (n, e) :: rest => runCalls cfg (baixar_dados cfg st n e).state rest

/-- Dates of a frame's rows are strictly increasing. -/
def datesSorted (f : RawFrame) : Prop :=
  List.Pairwise (· < ·) (f.rows.map Prod.fst)

instance (f : RawFrame) : Decidable (datesSorted f) :=
  inferInstanceAs (Decidable (List.Pairwise _ _))

/-- No cell of any row of the frame is missing. -/
def noMissing (f : RawFrame) : Bool :=
  f.rows.all (fun r => r.2.all Option.isSome)

/-- Program counter of one concurrent caller inside `with_cache`: about to
run the freshness check (app.py:77), about to run the fetch-and-store body
(app.py:80-86), or finished with the value it returns. The wrapped
function performs blocking network I/O, during which other callers run, so
the check of one caller and the fetch of another interleave; each `Phase`
transition is one atomic region. -/
inductive Phase
  | check
  | fetch
  | finished (r : Except PyError RawFrame)
deriving DecidableEq

/-- One concurrent caller of `baixar_dados`: its argument, its call
environment and its program counter. -/
structure Thread where
  name : String
  env : Env
  phase : Phase
deriving DecidableEq

/-- Shared configuration of the concurrent system: the one `cache` dict,
the callers, and the upstream invocations performed so far (by anyone). -/
structure Conc where
  st : SysState
  threads : List Thread
  calls : List FetchCall
deriving DecidableEq

/-- One atomic step of caller `i`. The check reads the shared cache and
either finishes with the cached value or proceeds to the fetch; the fetch
runs `baixar_dados_inner` and, on success, writes the shared cache, on an
exception leaves it alone — exactly the two halves of `with_cache`
(app.py:77-78 and app.py:80-89). An index outside the thread list or a
finished caller leaves the system unchanged. -/
def stepThread (cfg : Config) (c : Conc) (i : Nat) : Conc :=
  match c.threads[i]? with
  | none => c
  | some t =>
    match t.phase with
    | .check =>
      match c.st.cache.lookup t.name with
      | some entry =>
        if t.env.now - entry.timestamp < CACHE_TIMEOUT then
          ⟨c.st, c.threads.set i ⟨t.name, t.env, .finished (.ok entry.data)⟩, c.calls⟩
        else ⟨c.st, c.threads.set i ⟨t.name, t.env, .fetch⟩, c.calls⟩
      | none => ⟨c.st, c.threads.set i ⟨t.name, t.env, .fetch⟩, c.calls⟩
    | .fetch =>
      match (baixar_dados_inner cfg t.name t.env).1 with
      | .ok result =>
        ⟨⟨dictInsert t.name ⟨result, t.env.now2⟩ c.st.cache⟩,
         c.threads.set i ⟨t.name, t.env, .finished (.ok result)⟩,
         c.calls ++ (baixar_dados_inner cfg t.name t.env).2⟩
      | .error _ =>
        ⟨c.st, c.threads.set i ⟨t.name, t.env, .finished (.ok emptyFrame)⟩,
         c.calls ++ (baixar_dados_inner cfg t.name t.env).2⟩
    | .finished _ => c

/-- Run a schedule: a list of caller indices, each performing its next
atomic step in turn. -/
def runSched (cfg : Config) (c : Conc) : List Nat → Conc
  | [] => c
  | i :: rest => runSched cfg (stepThread cfg c i) rest

/-- A caller that finished and received a series (not an exception). -/
def Phase.isOkFinished : Phase → Bool
  | .finished (.ok _) => true
  | _ => false

/-- Every caller finished and received a series. -/
def allFinishedOk (c : Conc) : Bool :=
  c.threads.all (fun t => t.phase.isOkFinished)

/-! Concrete inputs used by counterexamples and witnesses. -/

/-- An environment whose sources would both fail. -/
def envFail : Env := ⟨100, 100, .error (), .error ()⟩

/-- A one-row central-bank response for "Taxa Selic". -/
def frameSelic : RawFrame := ⟨["Taxa Selic"], [(10, [some 3])]⟩

/-- Environment of a successful central-bank fetch at time 0. -/
def envSelicOk : Env := ⟨0, 0, .error (), .ok frameSelic⟩

/-- Environment of a later call: time 100, sources failing. -/
def envLater : Env := ⟨100, 100, .error (), .error ()⟩

/-- Environment invoked two days after process start, central-bank fetch
succeeding. -/
def envTwoDays : Env := ⟨2 * 86400, 2 * 86400, .error (), .ok frameSelic⟩

/-- Five raw rows, the third with a missing value, dates out of order. -/
def rawFive : RawFrame :=
  ⟨["valor"], [(5, [some 1]), (3, [some 2]), (4, [none]), (1, [some 3]), (2, [some 4])]⟩

/-- An empty Yahoo Finance download outcome (no rows). -/
def envEmptyYF : Env := ⟨0, 0, .ok ⟨["Close"], []⟩, .error ()⟩

/-- A state whose cache holds one entry for "Taxa Selic" stored at
time 1000. -/
def stSelic : SysState := ⟨[("Taxa Selic", ⟨frameSelic, 1000⟩)]⟩

/-- A call arriving one second before the entry of `stSelic` expires. -/
def envBoundaryFresh : Env := ⟨1000 + 3599, 1000 + 3599, .error (), .ok frameSelic⟩

/-- A call arriving one second after the entry of `stSelic` expires. -/
def envBoundaryStale : Env := ⟨1000 + 3601, 1000 + 3601, .error (), .ok frameSelic⟩

/-- Two callers for "Taxa Selic", both at their freshness check, empty
cache, no upstream invocation yet. -/
def concTwo : Conc :=
  ⟨initState,
   [⟨"Taxa Selic", envSelicOk, .check⟩, ⟨"Taxa Selic", envSelicOk, .check⟩],
   []⟩

/-- Every key bound in the cache names a registered indicator. -/
def cacheKeysRegistered (st : SysState) : Prop :=
  ∀ p ∈ st.cache, (indicadores.lookup p.1).isSome = true

/-! Helper lemmas about the embedded operations. -/

lemma lookup_dictInsert_self (k : String) (v : CacheEntry)
    (d : List (String × CacheEntry)) : (dictInsert k v d).lookup k = some v := by
  simp [dictInsert, List.lookup]

lemma inner_calls (cfg : Config) (name : String) (env : Env)
    (info : IndicadorInfo) (h : indicadores.lookup name = some info) :
    (baixar_dados_inner cfg name env).2 =
      [⟨info.fonte, info.codigo, cfg.start_date, cfg.end_date⟩] := by
  obtain ⟨c, f, u⟩ := info
  cases f
  · simp [baixar_dados_inner, h]
  · cases hb : env.bcb <;> simp [baixar_dados_inner, h, hb]

lemma with_cache_fetch_calls
    (func : Config → String → Env → Except PyError RawFrame × List FetchCall)
    (cfg : Config) (st : SysState) (name : String) (env : Env) :
    (with_cache_fetch func cfg st name env).calls = (func cfg name env).2 := by
  unfold with_cache_fetch
  cases (func cfg name env).1 <;> rfl

lemma with_cache_fetch_ok
    (func : Config → String → Env → Except PyError RawFrame × List FetchCall)
    (cfg : Config) (st : SysState) (name : String) (env : Env) (s : RawFrame)
    (h : (func cfg name env).1 = Except.ok s) :
    with_cache_fetch func cfg st name env =
      ⟨Except.ok s, ⟨dictInsert name ⟨s, env.now2⟩ st.cache⟩,
       (func cfg name env).2⟩ := by
  unfold with_cache_fetch
  rw [h]

lemma with_cache_fetch_err
    (func : Config → String → Env → Except PyError RawFrame × List FetchCall)
    (cfg : Config) (st : SysState) (name : String) (env : Env) (e : PyError)
    (h : (func cfg name env).1 = Except.error e) :
    with_cache_fetch func cfg st name env =
      ⟨Except.ok emptyFrame, st, (func cfg name env).2⟩ := by
  unfold with_cache_fetch
  rw [h]

lemma inner_ok_registered (cfg : Config) (name : String) (env : Env)
    (s : RawFrame) (h : (baixar_dados_inner cfg name env).1 = Except.ok s) :
    (indicadores.lookup name).isSome = true := by
  cases hl : indicadores.lookup name
  · simp [baixar_dados_inner, hl] at h
  · rfl

lemma baixar_dados_miss (cfg : Config) (st : SysState) (name : String)
    (env : Env) (hmiss : st.cache.lookup name = none) :
    baixar_dados cfg st name env =
      with_cache_fetch baixar_dados_inner cfg st name env := by
  unfold baixar_dados with_cache
  rw [hmiss]

lemma baixar_dados_hit (cfg : Config) (st : SysState) (name : String)
    (env : Env) (entry : CacheEntry)
    (hc : st.cache.lookup name = some entry)
    (hfresh : env.now - entry.timestamp < CACHE_TIMEOUT) :
    baixar_dados cfg st name env = ⟨Except.ok entry.data, st, []⟩ := by
  unfold baixar_dados with_cache
  rw [hc]
  simp [hfresh]

lemma baixar_dados_stale (cfg : Config) (st : SysState) (name : String)
    (env : Env) (entry : CacheEntry)
    (hc : st.cache.lookup name = some entry)
    (hstale : ¬ env.now - entry.timestamp < CACHE_TIMEOUT) :
    baixar_dados cfg st name env =
      with_cache_fetch baixar_dados_inner cfg st name env := by
  unfold baixar_dados with_cache
  rw [hc]
  simp [hstale]

lemma fetch_then_hit (cfg : Config) (st : SysState) (name : String)
    (env1 env2 : Env) (s : RawFrame)
    (hmiss : st.cache.lookup name = none)
    (hok : (baixar_dados_inner cfg name env1).1 = Except.ok s)
    (hfresh : env2.now - env1.now2 < CACHE_TIMEOUT) :
    baixar_dados cfg st name env1 =
      ⟨Except.ok s, ⟨dictInsert name ⟨s, env1.now2⟩ st.cache⟩,
       (baixar_dados_inner cfg name env1).2⟩ ∧
    baixar_dados cfg (baixar_dados cfg st name env1).state name env2 =
      ⟨Except.ok s, (baixar_dados cfg st name env1).state, []⟩ := by
  have h1 : baixar_dados cfg st name env1 =
      ⟨Except.ok s, ⟨dictInsert name ⟨s, env1.now2⟩ st.cache⟩,
       (baixar_dados_inner cfg name env1).2⟩ := by
    rw [baixar_dados_miss cfg st name env1 hmiss]
    exact with_cache_fetch_ok _ cfg st name env1 s hok
  refine ⟨h1, ?_⟩
  have hl : (baixar_dados cfg st name env1).state.cache.lookup name =
      some ⟨s, env1.now2⟩ := by
    rw [h1]
    exact lookup_dictInsert_self name _ st.cache
  rw [baixar_dados_hit cfg _ name env2 ⟨s, env1.now2⟩ hl hfresh]

lemma with_cache_fetch_cacheKeys (cfg : Config) (st : SysState)
    (name : String) (env : Env) (h : cacheKeysRegistered st) :
    cacheKeysRegistered
      (with_cache_fetch baixar_dados_inner cfg st name env).state := by
  rcases hr : (baixar_dados_inner cfg name env).1 with e | s
  · rw [with_cache_fetch_err _ cfg st name env e hr]
    exact h
  · rw [with_cache_fetch_ok _ cfg st name env s hr]
    intro p hp
    rcases List.mem_cons.1 hp with hp1 | hp2
    · subst hp1
      exact inner_ok_registered cfg name env s hr
    · exact h p (List.mem_of_mem_filter hp2)

lemma step_cacheKeys (cfg : Config) (st : SysState) (name : String)
    (env : Env) (h : cacheKeysRegistered st) :
    cacheKeysRegistered (baixar_dados cfg st name env).state := by
  rcases hl : st.cache.lookup name with _ | entry
  · rw [baixar_dados_miss cfg st name env hl]
    exact with_cache_fetch_cacheKeys cfg st name env h
  · by_cases hf : env.now - entry.timestamp < CACHE_TIMEOUT
    · rw [baixar_dados_hit cfg st name env entry hl hf]
      exact h
    · rw [baixar_dados_stale cfg st name env entry hl hf]
      exact with_cache_fetch_cacheKeys cfg st name env h

lemma ret_isOk (cfg : Config) (st : SysState) (name : String) (env : Env) :
    ((baixar_dados cfg st name env).ret).isOk = true := by
  rcases hl : st.cache.lookup name with _ | entry
  · rw [baixar_dados_miss cfg st name env hl]
    rcases hr : (baixar_dados_inner cfg name env).1 with e | s
    · rw [with_cache_fetch_err _ cfg st name env e hr]; rfl
    · rw [with_cache_fetch_ok _ cfg st name env s hr]; rfl
  · by_cases hf : env.now - entry.timestamp < CACHE_TIMEOUT
    · rw [baixar_dados_hit cfg st name env entry hl hf]; rfl
    · rw [baixar_dados_stale cfg st name env entry hl hf]
      rcases hr : (baixar_dados_inner cfg name env).1 with e | s
      · rw [with_cache_fetch_err _ cfg st name env e hr]; rfl
      · rw [with_cache_fetch_ok _ cfg st name env s hr]; rfl

lemma inner_fault (cfg : Config) (name : String) (env : Env)
    (info : IndicadorInfo) (hreg : indicadores.lookup name = some info)
    (hyf : env.yf = Except.error ()) (hbcb : env.bcb = Except.error ()) :
    (baixar_dados_inner cfg name env).1 = Except.ok emptyFrame ∨
    (baixar_dados_inner cfg name env).1 = Except.error PyError.sourceError := by
  obtain ⟨c, f, u⟩ := info
  cases f
  · left
    simp [baixar_dados_inner, hreg, hyf, fetch_yfinance_data, dropna, emptyFrame]
  · right
    simp [baixar_dados_inner, hreg, hbcb]

lemma inner_calls_window (cfg : Config) (name : String) (env : Env)
    (fc : FetchCall) (hfc : fc ∈ (baixar_dados_inner cfg name env).2) :
    fc.start_date = cfg.start_date ∧ fc.end_date = cfg.end_date := by
  rcases hr : indicadores.lookup name with _ | info
  · simp [baixar_dados_inner, hr] at hfc
  · rw [inner_calls cfg name env info hr] at hfc
    rw [List.mem_singleton.1 hfc]
    exact ⟨rfl, rfl⟩

/-! Claim theorems. -/

/-- Claim C1 counterexample: "Selic" is not in the registry, yet the call
does not fail: `with_cache` catches the `KeyError` raised by
`indicadores[indicador_nome]` and hands the caller an ordinary ok-result
holding the empty frame (no upstream fetch happens, but no
`UnknownIndicator` error reaches the caller either). -/
theorem c1_counterexample :
    (baixar_dados (initConfig 0) initState "Selic" envFail).ret =
      Except.ok emptyFrame ∧
    (baixar_dados (initConfig 0) initState "Selic" envFail).calls = [] := by
  constructor <;> rfl

/-- Claim C1 (amended): for every name outside the registry (and absent
from the cache), `baixar_dados` performs no network I/O and leaves the
state unchanged, but it does not report a failure: the `KeyError` is
swallowed by the cache wrapper and the caller receives the empty frame as
an ordinary result. -/
theorem c1_unknown_silent_empty (cfg : Config) (st : SysState)
    (name : String) (env : Env)
    (hreg : indicadores.lookup name = none)
    (hmiss : st.cache.lookup name = none) :
    (baixar_dados cfg st name env).ret = Except.ok emptyFrame ∧
    (baixar_dados cfg st name env).calls = [] ∧
    (baixar_dados cfg st name env).state = st := by
  have hinner : baixar_dados_inner cfg name env = (Except.error .keyError, []) := by
    simp [baixar_dados_inner, hreg]
  rw [baixar_dados_miss cfg st name env hmiss,
      with_cache_fetch_err _ cfg st name env .keyError (by rw [hinner]), hinner]
  exact ⟨rfl, rfl, rfl⟩

/-- Claim C1 witness: instantiation at the unknown name "PIB". -/
theorem c1_witness :
    (baixar_dados (initConfig 5) initState "PIB" envFail).ret =
      Except.ok emptyFrame ∧
    (baixar_dados (initConfig 5) initState "PIB" envFail).calls = [] ∧
    (baixar_dados (initConfig 5) initState "PIB" envFail).state = initState :=
  c1_unknown_silent_empty (initConfig 5) initState "PIB" envFail (by decide) rfl

/-- Claim C2 counterexample: the fetch for the registered name
"Taxa Selic" raises (`sgs.get` fails); the facade returns the empty frame
but the claimed cache entry with an empty series and a timestamp is never
written — the cache still has no binding for "Taxa Selic". -/
theorem c2_counterexample :
    (baixar_dados (initConfig 0) initState "Taxa Selic" envFail).ret =
      Except.ok emptyFrame ∧
    (baixar_dados (initConfig 0) initState "Taxa Selic"
        envFail).state.cache.lookup "Taxa Selic" = none := by
  constructor <;> rfl

/-- Claim C2 (amended): when the wrapped fetch raises for a registered
name, `with_cache` catches the exception and returns the empty frame, but
writes no cache entry: the state is exactly the old one, so the next call
for that name will hit the source again (the one failed upstream attempt
is recorded). -/
theorem c2_error_not_cached (cfg : Config) (st : SysState) (name : String)
    (env : Env) (info : IndicadorInfo)
    (hreg : indicadores.lookup name = some info)
    (hmiss : st.cache.lookup name = none)
    (herr : (baixar_dados_inner cfg name env).1 =
      Except.error PyError.sourceError) :
    (baixar_dados cfg st name env).ret = Except.ok emptyFrame ∧
    (baixar_dados cfg st name env).state = st ∧
    (baixar_dados cfg st name env).calls.length = 1 := by
  rw [baixar_dados_miss cfg st name env hmiss,
      with_cache_fetch_err _ cfg st name env .sourceError herr]
  refine ⟨rfl, rfl, ?_⟩
  rw [inner_calls cfg name env info hreg]
  rfl

/-- Claim C2 witness: instantiation at "Taxa Selic" with a failing
central-bank source. -/
theorem c2_witness :
    (baixar_dados (initConfig 0) initState "Taxa Selic" envFail).ret =
      Except.ok emptyFrame ∧
    (baixar_dados (initConfig 0) initState "Taxa Selic" envFail).state =
      initState ∧
    (baixar_dados (initConfig 0) initState "Taxa Selic"
        envFail).calls.length = 1 :=
  c2_error_not_cached (initConfig 0) initState "Taxa Selic" envFail
    ⟨.num 4189, .BCB, "% ao ano"⟩ (by decide) rfl (by decide)

/-- Claim C5: for a registered name the call never surfaces an exception —
the result is an ok-carried frame whatever the call environment does — and
when both upstream transports fail on a cache miss the caller receives the
empty frame as a valid result. -/
theorem c5_transport_faults_degrade (cfg : Config) (st : SysState)
    (name : String) (env : Env) (info : IndicadorInfo)
    (hreg : indicadores.lookup name = some info) :
    ((baixar_dados cfg st name env).ret).isOk = true ∧
    ((st.cache.lookup name = none ∧ env.yf = Except.error () ∧
        env.bcb = Except.error ()) →
      (baixar_dados cfg st name env).ret = Except.ok emptyFrame) := by
  refine ⟨ret_isOk cfg st name env, ?_⟩
  rintro ⟨hmiss, hyf, hbcb⟩
  rw [baixar_dados_miss cfg st name env hmiss]
  rcases inner_fault cfg name env info hreg hyf hbcb with hr | hr
  · rw [with_cache_fetch_ok _ cfg st name env emptyFrame hr]
  · rw [with_cache_fetch_err _ cfg st name env .sourceError hr]

/-- Claim C5 witness: instantiation at "Ibovespa" with both sources
failing. -/
theorem c5_witness :
    ((baixar_dados (initConfig 0) initState "Ibovespa" envFail).ret).isOk =
      true ∧
    ((initState.cache.lookup "Ibovespa" = none ∧
        envFail.yf = Except.error () ∧ envFail.bcb = Except.error ()) →
      (baixar_dados (initConfig 0) initState "Ibovespa" envFail).ret =
        Except.ok emptyFrame) :=
  c5_transport_faults_degrade (initConfig 0) initState "Ibovespa" envFail
    ⟨.str "^BVSP", .YF, "Pontos"⟩ (by decide)

/-- Claim C10: starting from the empty cache, after any sequence of calls
every key bound in the cache is a registered indicator name — an
unregistered name never creates an entry, because the registry lookup
raises before the cache write and the exception path stores nothing. -/
theorem c10_cache_keys_registered (cfg : Config)
    (ops : List (String × Env)) :
    cacheKeysRegistered (runCalls cfg initState ops) := by
  suffices h : ∀ l st, cacheKeysRegistered st →
      cacheKeysRegistered (runCalls cfg st l) by
    refine h ops initState ?_
    intro p hp
    simp [initState] at hp
  intro l
  induction l with
  | nil => intro st h; exact h
  | cons op rest ih =>
    intro st h
    obtain ⟨n, e⟩ := op
    exact ih _ (step_cacheKeys cfg st n e h)

/-- Claim C3: for a cached registered name, the entry is served exactly
when `now - timestamp < CACHE_TIMEOUT` (and `CACHE_TIMEOUT = 3600`); a
call one second before expiry returns the cached series with no upstream
I/O and no state change, and a call one second after expiry performs
exactly one upstream fetch. -/
theorem c3_ttl_boundary (cfg : Config) (st : SysState) (name : String)
    (entry : CacheEntry) (info : IndicadorInfo) (env1 env2 env3 : Env)
    (hreg : indicadores.lookup name = some info)
    (hc : st.cache.lookup name = some entry)
    (h1 : env1.now = entry.timestamp + CACHE_TIMEOUT - 1)
    (h2 : env2.now = entry.timestamp + CACHE_TIMEOUT + 1) :
    CACHE_TIMEOUT = 3600 ∧
    ((baixar_dados cfg st name env3).calls = [] ↔
      env3.now - entry.timestamp < CACHE_TIMEOUT) ∧
    (baixar_dados cfg st name env1).ret = Except.ok entry.data ∧
    (baixar_dados cfg st name env1).state = st ∧
    (baixar_dados cfg st name env1).calls = [] ∧
    (baixar_dados cfg st name env2).calls.length = 1 := by
  have hC : CACHE_TIMEOUT = 3600 := rfl
  have hfresh1 : env1.now - entry.timestamp < CACHE_TIMEOUT := by
    rw [h1]; omega
  have hstale2 : ¬ env2.now - entry.timestamp < CACHE_TIMEOUT := by
    rw [h2]; omega
  have hiff : (baixar_dados cfg st name env3).calls = [] ↔
      env3.now - entry.timestamp < CACHE_TIMEOUT := by
    by_cases hf : env3.now - entry.timestamp < CACHE_TIMEOUT
    · rw [baixar_dados_hit cfg st name env3 entry hc hf]
      simp [hf]
    · rw [baixar_dados_stale cfg st name env3 entry hc hf,
          with_cache_fetch_calls, inner_calls cfg name env3 info hreg]
      simp [hf]
  refine ⟨hC, hiff, ?_, ?_, ?_, ?_⟩
  · rw [baixar_dados_hit cfg st name env1 entry hc hfresh1]
  · rw [baixar_dados_hit cfg st name env1 entry hc hfresh1]
  · rw [baixar_dados_hit cfg st name env1 entry hc hfresh1]
  · rw [baixar_dados_stale cfg st name env2 entry hc hstale2,
        with_cache_fetch_calls, inner_calls cfg name env2 info hreg]
    rfl

/-- Claim C3 witness: the entry of `stSelic` was stored at time 1000;
calls at times 4599 and 4601 sit on the two sides of the TTL boundary. -/
theorem c3_witness :
    CACHE_TIMEOUT = 3600 ∧
    ((baixar_dados (initConfig 0) stSelic "Taxa Selic"
        envBoundaryFresh).calls = [] ↔
      envBoundaryFresh.now - 1000 < CACHE_TIMEOUT) ∧
    (baixar_dados (initConfig 0) stSelic "Taxa Selic" envBoundaryFresh).ret =
      Except.ok frameSelic ∧
    (baixar_dados (initConfig 0) stSelic "Taxa Selic"
        envBoundaryFresh).state = stSelic ∧
    (baixar_dados (initConfig 0) stSelic "Taxa Selic"
        envBoundaryFresh).calls = [] ∧
    (baixar_dados (initConfig 0) stSelic "Taxa Selic"
        envBoundaryStale).calls.length = 1 :=
  c3_ttl_boundary (initConfig 0) stSelic "Taxa Selic" ⟨frameSelic, 1000⟩
    ⟨.num 4189, .BCB, "% ao ano"⟩ envBoundaryFresh envBoundaryStale
    envBoundaryFresh (by decide) (by decide) (by decide) (by decide)

/-- Claim C4: a first call for an uncached name whose fetch succeeds and a
second call within the TTL window return bit-identical series; the second
call performs zero upstream I/O and leaves the state untouched. -/
theorem c4_second_call_cached (cfg : Config) (st : SysState) (name : String)
    (env1 env2 : Env) (s : RawFrame)
    (hmiss : st.cache.lookup name = none)
    (hok : (baixar_dados_inner cfg name env1).1 = Except.ok s)
    (hfresh : env2.now - env1.now2 < CACHE_TIMEOUT) :
    (baixar_dados cfg st name env1).ret = Except.ok s ∧
    (baixar_dados cfg (baixar_dados cfg st name env1).state name env2).ret =
      Except.ok s ∧
    (baixar_dados cfg (baixar_dados cfg st name env1).state name
        env2).calls = [] ∧
    (baixar_dados cfg (baixar_dados cfg st name env1).state name
        env2).state = (baixar_dados cfg st name env1).state := by
  obtain ⟨h1, h2⟩ := fetch_then_hit cfg st name env1 env2 s hmiss hok hfresh
  exact ⟨by rw [h1], by rw [h2], by rw [h2], by rw [h2]⟩

/-- Claim C4 witness: "Taxa Selic" fetched successfully at time 0, second
call at time 100. -/
theorem c4_witness :
    (baixar_dados (initConfig 0) initState "Taxa Selic" envSelicOk).ret =
      Except.ok frameSelic ∧
    (baixar_dados (initConfig 0)
        (baixar_dados (initConfig 0) initState "Taxa Selic" envSelicOk).state
        "Taxa Selic" envLater).ret = Except.ok frameSelic ∧
    (baixar_dados (initConfig 0)
        (baixar_dados (initConfig 0) initState "Taxa Selic" envSelicOk).state
        "Taxa Selic" envLater).calls = [] ∧
    (baixar_dados (initConfig 0)
        (baixar_dados (initConfig 0) initState "Taxa Selic" envSelicOk).state
        "Taxa Selic" envLater).state =
      (baixar_dados (initConfig 0) initState "Taxa Selic" envSelicOk).state :=
  c4_second_call_cached (initConfig 0) initState "Taxa Selic" envSelicOk
    envLater frameSelic rfl (by decide) (by decide)

/-- Claim C8: when the Yahoo Finance adapter observes an empty raw result
for a registered market indicator, the facade returns the empty frame, a
cache entry holding the empty frame and the write-time timestamp is still
created, and a second call within the TTL window returns the empty frame
with no upstream I/O. -/
theorem c8_empty_raw_still_cached (cfg : Config) (st : SysState)
    (name : String) (env1 env2 : Env) (info : IndicadorInfo) (raw : RawFrame)
    (hreg : indicadores.lookup name = some info)
    (hYF : info.fonte = Fonte.YF)
    (hmiss : st.cache.lookup name = none)
    (hyf : env1.yf = Except.ok raw)
    (hraw : raw.rows = [])
    (hfresh : env2.now - env1.now2 < CACHE_TIMEOUT) :
    (baixar_dados cfg st name env1).ret = Except.ok emptyFrame ∧
    (baixar_dados cfg st name env1).state.cache.lookup name =
      some ⟨emptyFrame, env1.now2⟩ ∧
    (baixar_dados cfg (baixar_dados cfg st name env1).state name env2).ret =
      Except.ok emptyFrame ∧
    (baixar_dados cfg (baixar_dados cfg st name env1).state name
        env2).calls = [] := by
  have hok : (baixar_dados_inner cfg name env1).1 = Except.ok emptyFrame := by
    obtain ⟨c, f, u⟩ := info
    subst hYF
    simp [baixar_dados_inner, hreg, fetch_yfinance_data, hyf, hraw, dropna,
      emptyFrame]
  obtain ⟨h1, h2⟩ :=
    fetch_then_hit cfg st name env1 env2 emptyFrame hmiss hok hfresh
  refine ⟨by rw [h1], ?_, by rw [h2], by rw [h2]⟩
  rw [h1]
  exact lookup_dictInsert_self name _ st.cache

/-- Claim C8 witness: "Ibovespa" with an empty Yahoo Finance download at
time 0, second call at time 100. -/
theorem c8_witness :
    (baixar_dados (initConfig 0) initState "Ibovespa" envEmptyYF).ret =
      Except.ok emptyFrame ∧
    (baixar_dados (initConfig 0) initState "Ibovespa"
        envEmptyYF).state.cache.lookup "Ibovespa" =
      some ⟨emptyFrame, envEmptyYF.now2⟩ ∧
    (baixar_dados (initConfig 0)
        (baixar_dados (initConfig 0) initState "Ibovespa" envEmptyYF).state
        "Ibovespa" envLater).ret = Except.ok emptyFrame ∧
    (baixar_dados (initConfig 0)
        (baixar_dados (initConfig 0) initState "Ibovespa" envEmptyYF).state
        "Ibovespa" envLater).calls = [] :=
  c8_empty_raw_still_cached (initConfig 0) initState "Ibovespa" envEmptyYF
    envLater ⟨.str "^BVSP", .YF, "Pontos"⟩ ⟨["Close"], []⟩ (by decide) rfl
    rfl (by decide) rfl (by decide)

/-- Claim C6 counterexample: with the process initialized at time 0, a
call arriving two days later (time 172800) still passes
`end_date = 86400` — one day after process start — to the adapter, not
"tomorrow" of the invocation (259200): the end date was computed once at
import, not per invocation. -/
theorem c6_counterexample :
    (baixar_dados (initConfig 0) initState "Taxa Selic" envTwoDays).calls =
      [⟨Fonte.BCB, Codigo.num 4189, START_DATE, oneDay⟩] ∧
    oneDay ≠ envTwoDays.now + oneDay := by
  exact ⟨rfl, by decide⟩

/-- Claim C6 (amended): every upstream fetch uses `start_date` = the fixed
1994-07-01 constant and `end_date` = tomorrow relative to the process
initialization time `t0`, a value computed once at import and fixed for
the process lifetime (not recomputed at each invocation). -/
theorem c6_fixed_window (t0 : Nat) (st : SysState) (name : String)
    (env : Env) (fc : FetchCall)
    (hfc : fc ∈ (baixar_dados (initConfig t0) st name env).calls) :
    fc.start_date = START_DATE ∧ fc.end_date = t0 + oneDay := by
  rcases hl : st.cache.lookup name with _ | entry
  · rw [baixar_dados_miss _ st name env hl, with_cache_fetch_calls] at hfc
    exact inner_calls_window (initConfig t0) name env fc hfc
  · by_cases hf : env.now - entry.timestamp < CACHE_TIMEOUT
    · rw [baixar_dados_hit _ st name env entry hl hf] at hfc
      simp at hfc
    · rw [baixar_dados_stale _ st name env entry hl hf,
          with_cache_fetch_calls] at hfc
      exact inner_calls_window (initConfig t0) name env fc hfc

/-- Claim C6 witness: the fetch recorded by the two-days-later call of the
counterexample setup indeed carries the fixed window. -/
theorem c6_witness :
    (⟨Fonte.BCB, Codigo.num 4189, START_DATE, oneDay⟩ :
      FetchCall).start_date = START_DATE ∧
    (⟨Fonte.BCB, Codigo.num 4189, START_DATE, oneDay⟩ :
      FetchCall).end_date = 0 + oneDay :=
  c6_fixed_window 0 initState "Taxa Selic" envTwoDays
    ⟨Fonte.BCB, Codigo.num 4189, START_DATE, oneDay⟩ (by decide)

/-- Claim C7 counterexample: `rawFive` has five rows of which exactly one
has a missing value; `dropna` keeps the other four rows but performs no
sort, so the normalized result is not sorted ascending by date. -/
theorem c7_counterexample :
    rawFive.rows.length = 5 ∧
    (rawFive.rows.filter (fun r => !(r.2.all Option.isSome))).length = 1 ∧
    (dropna rawFive).rows.length = 4 ∧
    ¬ datesSorted (dropna rawFive) := by
  exact ⟨rfl, rfl, rfl, by decide⟩

/-- Claim C7 (amended): normalization (`dropna`) removes exactly the rows
with a missing value (never interpolating) and preserves the input order;
so when the raw rows are already sorted ascending by date — as the
upstream sources deliver them — five rows with one missing value
normalize to exactly four points, sorted ascending, with no missing
values. -/
theorem c7_dropna_sorted_input (f : RawFrame)
    (hsort : datesSorted f)
    (h5 : f.rows.length = 5)
    (h1 : (f.rows.filter (fun r => !(r.2.all Option.isSome))).length = 1) :
    (dropna f).rows.length = 4 ∧ datesSorted (dropna f) ∧
    noMissing (dropna f) = true := by
  refine ⟨?_, ?_, ?_⟩
  · have h : f.rows.length =
        (f.rows.filter (fun r => r.2.all Option.isSome)).length +
        (f.rows.filter (fun r => !(r.2.all Option.isSome))).length :=
      List.length_eq_length_filter_add _
    rw [h5, h1] at h
    show (f.rows.filter (fun r => r.2.all Option.isSome)).length = 4
    omega
  · exact hsort.sublist ((List.filter_sublist f.rows).map Prod.fst)
  · refine List.all_eq_true.2 ?_
    intro r hr
    have hr' : r ∈ f.rows.filter (fun r => r.2.all Option.isSome) := hr
    exact (List.mem_filter.1 hr').2

/-- Claim C7 witness: the four kept rows of a sorted five-row frame with
one missing value. -/
theorem c7_witness :
    (dropna ⟨["valor"], [(1, [some 1]), (2, [some 2]), (3, [none]),
        (4, [some 3]), (5, [some 4])]⟩).rows.length = 4 ∧
    datesSorted (dropna ⟨["valor"], [(1, [some 1]), (2, [some 2]),
        (3, [none]), (4, [some 3]), (5, [some 4])]⟩) ∧
    noMissing (dropna ⟨["valor"], [(1, [some 1]), (2, [some 2]),
        (3, [none]), (4, [some 3]), (5, [some 4])]⟩) = true :=
  c7_dropna_sorted_input
    ⟨["valor"], [(1, [some 1]), (2, [some 2]), (3, [none]), (4, [some 3]),
      (5, [some 4])]⟩ (by decide) rfl rfl

/-- Claim C9 counterexample: two concurrent callers of the stale (absent)
"Taxa Selic" entry, interleaved check-check-fetch-fetch, perform two
upstream invocations — not the exactly one the claim requires. -/
theorem c9_counterexample :
    (runSched (initConfig 0) concTwo [0, 1, 0, 1]).calls.length = 2 ∧
    (runSched (initConfig 0) concTwo [0, 1, 0, 1]).calls.length ≠ 1 := by
  exact ⟨rfl, by decide⟩

/-- Claim C9 (amended): the unsynchronized cache provides no per-name
serialization: two concurrent callers for the same registered, uncached
name that both pass the freshness check before either fetches each perform
their own upstream invocation (two fetches, not one); each caller still
finishes with a series of its own fetch. -/
theorem c9_concurrent_double_fetch (cfg : Config) (st : SysState)
    (name : String) (env1 env2 : Env) (info : IndicadorInfo)
    (hreg : indicadores.lookup name = some info)
    (hmiss : st.cache.lookup name = none) :
    (runSched cfg ⟨st, [⟨name, env1, .check⟩, ⟨name, env2, .check⟩], []⟩
        [0, 1, 0, 1]).calls.length = 2 ∧
    allFinishedOk (runSched cfg
      ⟨st, [⟨name, env1, .check⟩, ⟨name, env2, .check⟩], []⟩
      [0, 1, 0, 1]) = true := by
  have h1 := inner_calls cfg name env1 info hreg
  have h2 := inner_calls cfg name env2 info hreg
  rcases hr1 : (baixar_dados_inner cfg name env1).1 with e1 | s1 <;>
    rcases hr2 : (baixar_dados_inner cfg name env2).1 with e2 | s2 <;>
    simp [runSched, stepThread, hmiss, hr1, hr2, h1, h2, allFinishedOk,
      Phase.isOkFinished]

/-- Claim C9 witness: the two-caller system of the counterexample,
instantiated through the general theorem. -/
theorem c9_witness :
    (runSched (initConfig 0) ⟨initState, [⟨"Taxa Selic", envSelicOk, .check⟩,
        ⟨"Taxa Selic", envSelicOk, .check⟩], []⟩ [0, 1, 0, 1]).calls.length =
      2 ∧
    allFinishedOk (runSched (initConfig 0) ⟨initState,
      [⟨"Taxa Selic", envSelicOk, .check⟩,
       ⟨"Taxa Selic", envSelicOk, .check⟩], []⟩ [0, 1, 0, 1]) = true :=
  c9_concurrent_double_fetch (initConfig 0) initState "Taxa Selic"
    envSelicOk envSelicOk ⟨.num 4189, .BCB, "% ao ano"⟩ (by decide) rfl

end Indicadores
